import Mathlib

/-!
Shallow embedding of the support-portal backend proxy (`server.js`) and the
parts of its routing/middleware environment (Express route matching, the
`cors` middleware) that the verified properties depend on.

Each route handler of `server.js` is embedded as a pure Lean function.  A
handler receives its request inputs and, for every upstream collaborator it
may consult (CRM query/search/create, category APIs, the language model), a
function or value describing the collaborator's outcome.  A handler returns
its HTTP response together with the list of upstream calls it issued, so that
"no upstream call is attempted" is the statement that this list is empty.

JavaScript peculiarities are modelled explicitly:
* optional / falsy request fields are `Option String` (`none` = absent,
  `some ""` = blank), with `truthyOpt` reproducing JS truthiness on them;
* a thrown exception that escapes a handler (an unhandled rejection) is an
  `Except.error` outcome of the handler, distinct from any HTTP response;
* `server.js` lines 117-120: the catch block of the first `/api/cases/:email`
  handler evaluates the identifier `urlName`, which is bound nowhere in the
  file (it is an orphaned fragment of a deleted `/api/knowledge/article`
  handler), so that catch throws a `ReferenceError` instead of responding;
* `server.js` line 96 onward: the `try` opened on line 84 is never closed, a
  merge artifact; the embedding models each registered route body as written.

String-valued upstream queries are transcribed character for character from
the template literals of the source (apostrophes and braces appear via their
escape codes `\x27`, `\x7b`, `\x7d`).
-/

namespace SupportPortal

/-- A JSON value, as produced by `res.json(...)`. -/
inductive Json where
  | str (s : String)
  | bool (b : Bool)
  | num (n : Int)
  | arr (xs : List Json)
  | obj (fields : List (String × Json))

/-- An HTTP response: status code plus JSON body. -/
structure Response where
  status : Nat
  body : Json

/-- The one-field error envelope `{error: msg}` used by every failure path. -/
def errObj (msg : String) : Json :=
  Json.obj [("error", Json.str msg)]

/-- Outcome of an upstream (CRM / language-model) call; the payload is the
`err.message` string. -/
abbrev UpErr := String

/-- A JavaScript exception escaping a handler as an unhandled rejection. -/
inductive JsErr where
  | referenceError (name : String)
deriving DecidableEq

/-- JS truthiness of an optional string field: absent (`undefined`) and the
empty string are falsy, every other string is truthy. -/
def truthyOpt : Option String → Bool
  | none => false
  | some s => !(s == "")

/-- JS `x || false` on an optional boolean body field. -/
def jsOrFalse : Option Bool → Bool
  | none => false
  | some b => b

/-- A knowledge article as returned by the CRM search (`searchRecords`
elements); field names follow the CRM payload. -/
structure Article where
  Id : String
  Title : String
  Summary : String
  UrlName : String
deriving DecidableEq

/-- JSON encoding of an `Article`, as serialised inside `res.json`. -/
def articleJson (a : Article) : Json :=
  Json.obj [("Id", Json.str a.Id), ("Title", Json.str a.Title),
            ("Summary", Json.str a.Summary), ("UrlName", Json.str a.UrlName)]

/-- A category group returned by `conn.knowledge.getDataCategoryGroups`;
the handler reads only its `name`. -/
structure CategoryGroup where
  name : String
  label : String
deriving DecidableEq

/-- A `CaseComment` record as passed to `conn.sobject('CaseComment').create`. -/
structure CaseComment where
  ParentId : String
  CommentBody : String
  IsPublished : Bool
deriving DecidableEq

/-- One upstream call issued by a handler, tagged by collaborator operation.
`generate` is the only language-model call; all others hit the CRM. -/
inductive UpCall where
  | groups
  | tree (groupName : String)
  | query (soql : String)
  | search (sosl : String)
  | sobjectCreate (c : CaseComment)
  | generate (prompt : String)
  | fetchArticle (urlName : String)
deriving DecidableEq

/-- Whether an upstream call goes to the language-model collaborator. -/
def isLlmCall : UpCall → Bool
  | UpCall.generate _ => true
  | _ => false

/-! ### Upstream query strings (transcribed from the template literals) -/

/-- Text of the articles SOQL (server.js 85-92) before `categoryName`. -/
def articlesPre : String :=
  "\n      SELECT Id, Title, UrlName, Summary \n      FROM Knowledge__kav \n      WHERE PublishStatus=\x27Online\x27 AND Language=\x27en_US\x27 \n      AND DataCategorySelections.Knowledge.at(\x27"

/-- Text of the articles SOQL after `categoryName`. -/
def articlesSuf : String :=
  "\x27)\n      ORDER BY LastPublishedDate DESC\n      LIMIT 20\n    "

/-- The SOQL built by `GET /api/knowledge/articles/:categoryName`
(server.js 85-92): the raw `categoryName` is spliced into the template. -/
def soqlArticles (categoryName : String) : String :=
  articlesPre ++ categoryName ++ articlesSuf

/-- Text of the first cases SOQL (server.js 107-112) before `email`. -/
def cases1Pre : String :=
  "\n      SELECT Id, CaseNumber, Subject, Description, Status, CreatedDate \n      FROM Case \n      WHERE Contact.Email = \x27"

/-- Text of the first cases SOQL after `email`. -/
def cases1Suf : String :=
  "\x27 AND Status != \x27Closed\x27\n      ORDER BY CreatedDate DESC\n    "

/-- The SOQL built by the first `GET /api/cases/:email` handler
(server.js 107-112). -/
def soqlCases1 (email : String) : String :=
  cases1Pre ++ email ++ cases1Suf

/-- Text of the second cases SOQL (server.js 130-135) before `email`. -/
def cases2Pre : String :=
  "\n      SELECT Id, CaseNumber, Subject, Status, CreatedDate, Description \n      FROM Case \n      WHERE ContactEmail = \x27"

/-- Text of the second cases SOQL after `email`. -/
def cases2Suf : String :=
  "\x27 AND IsClosed = false\n      ORDER BY CreatedDate DESC\n    "

/-- The SOQL built by the second `GET /api/cases/:email` handler
(server.js 130-135). -/
def soqlCases2 (email : String) : String :=
  cases2Pre ++ email ++ cases2Suf

/-- Text of the SOSL (server.js 175-178) before `searchTerm`. -/
def soslPre : String :=
  "\n          FIND \x7b*"

/-- Text of the SOSL after `searchTerm`. -/
def soslSuf : String :=
  "*\x7d IN ALL FIELDS \n          RETURNING Knowledge__kav(Id, Title, Summary, UrlName WHERE PublishStatus=\x27Online\x27 AND Language=\x27en_US\x27 LIMIT 10)\n        "

/-- The SOSL built by `POST /api/search` (server.js 175-178). -/
def soslOf (searchTerm : String) : String :=
  soslPre ++ searchTerm ++ soslSuf

/-! ### Prompt assembly for the search endpoint (server.js 186-203) -/

/-- JS `Array.prototype.join(sep)`. -/
def joinSep (sep : String) : List String → String
  | [] => ""
  | [s] => s
  | s :: t :: rest => s ++ sep ++ joinSep sep (t :: rest)

/-- One context entry: `Title: ${art.Title}\nSummary: ${art.Summary}`
(server.js 187). -/
def contextEntry (a : Article) : String :=
  "Title: " ++ a.Title ++ "\nSummary: " ++ a.Summary

/-- The Gemini context string (server.js 187). -/
def searchContext (arts : List Article) : String :=
  joinSep "\n\n---\n\n" (arts.map contextEntry)

/-- Prompt template text before the context (server.js 190-196). -/
def promptHead : String :=
  "\n            Based on the following knowledge base articles, please answer the user\x27s question. \n            Provide a concise, helpful answer and cite the titles of the articles you used.\n            If the articles don\x27t contain the answer, say that you couldn\x27t find an answer in the knowledge base.\n\n            ARTICLES:\n            ---\n            "

/-- Prompt template text between the context and the search term. -/
def promptMid : String :=
  "\n            ---\n\n            USER QUESTION: \""

/-- Prompt template text after the search term. -/
def promptTail : String :=
  "\"\n\n            ANSWER:\n        "

/-- The full prompt submitted to the language model (server.js 190-203). -/
def searchPrompt (arts : List Article) (searchTerm : String) : String :=
  promptHead ++ searchContext arts ++ promptMid ++ searchTerm ++ promptTail

/-- The fixed zero-candidate response body (server.js 183). -/
def noResultsBody : Json :=
  Json.obj [("answer", Json.str "I couldn\x27t find any articles related to your search."),
            ("sources", Json.arr [])]

/-! ### Route handlers -/

/-- `GET /api/knowledge/categories` (server.js 69-79).  `groupsRes` is the
outcome of `getDataCategoryGroups(['Knowledge'])`; `treeRes` maps a group
name to the outcome of `getCategoryTree`.  When the CRM returns an empty
group list, `dataCategoryGroups[0]` is `undefined` and reading `.name` throws
a `TypeError`, which the handler's own catch turns into the 500 envelope. -/
def categoriesHandler (groupsRes : Except UpErr (List CategoryGroup))
    (treeRes : String → Except UpErr Json) : Response × List UpCall :=
  match groupsRes with
  | Except.error _ => (⟨500, errObj "Failed to fetch knowledge categories"⟩, [UpCall.groups])
  | Except.ok [] => (⟨500, errObj "Failed to fetch knowledge categories"⟩, [UpCall.groups])
  | Except.ok (g :: _) =>
    match treeRes g.name with
    | Except.error _ =>
        (⟨500, errObj "Failed to fetch knowledge categories"⟩, [UpCall.groups, UpCall.tree g.name])
    | Except.ok tree => (⟨200, tree⟩, [UpCall.groups, UpCall.tree g.name])

/-- The first `GET /api/cases/:email` handler (server.js 96-121).
`accessToken` models `conn.accessToken` (absent or empty is falsy, giving the
401 short-circuit of lines 97-99).  On upstream failure the catch block of
lines 117-120 evaluates the unbound identifier `urlName`, so the handler
throws a `ReferenceError` instead of responding. -/
def casesHandler1 (accessToken : Option String) (email : String)
    (q : String → Except UpErr (List Json)) : Except JsErr Response × List UpCall :=
  if truthyOpt accessToken then
    match q (soqlCases1 email) with
    | Except.ok recs => (Except.ok ⟨200, Json.arr recs⟩, [UpCall.query (soqlCases1 email)])
    | Except.error _ =>
        (Except.error (JsErr.referenceError "urlName"), [UpCall.query (soqlCases1 email)])
  else
    (Except.ok ⟨401, errObj "Salesforce not connected"⟩, [])

/-- The second `GET /api/cases/:email` handler (server.js 124-142). -/
def casesHandler2 (email : String)
    (q : String → Except UpErr (List Json)) : Response × List UpCall :=
  if email == "" then
    (⟨400, errObj "Email parameter is required."⟩, [])
  else
    match q (soqlCases2 email) with
    | Except.ok recs => (⟨200, Json.arr recs⟩, [UpCall.query (soqlCases2 email)])
    | Except.error _ =>
        (⟨500, errObj ("Failed to fetch cases for email " ++ email)⟩,
         [UpCall.query (soqlCases2 email)])

/-- `POST /api/cases/:caseId/reply` (server.js 145-164).  `commentBody` and
`isPublic` are the optional body fields; `create` is the outcome of
`conn.sobject('CaseComment').create`. -/
def replyHandler (caseId : String) (commentBody : Option String) (isPublic : Option Bool)
    (create : CaseComment → Except UpErr Json) : Response × List UpCall :=
  if truthyOpt commentBody then
    let c : CaseComment := ⟨caseId, commentBody.getD "", jsOrFalse isPublic⟩
    match create c with
    | Except.ok result => (⟨201, result⟩, [UpCall.sobjectCreate c])
    | Except.error _ => (⟨500, errObj "Failed to post reply"⟩, [UpCall.sobjectCreate c])
  else
    (⟨400, errObj "commentBody is required."⟩, [])

/-- `POST /api/search` (server.js 167-215).  `searchFn` is the outcome of
`conn.search` (`none` models a missing `searchRecords` field); `llm` is the
outcome of `model.generateContent` (the completion text). -/
def searchHandler (searchTerm : Option String)
    (searchFn : String → Except UpErr (Option (List Article)))
    (llm : String → Except UpErr String) : Response × List UpCall :=
  if truthyOpt searchTerm then
    let st := searchTerm.getD ""
    match searchFn (soslOf st) with
    | Except.error _ => (⟨500, errObj "Failed to perform search"⟩, [UpCall.search (soslOf st)])
    | Except.ok none => (⟨200, noResultsBody⟩, [UpCall.search (soslOf st)])
    | Except.ok (some []) => (⟨200, noResultsBody⟩, [UpCall.search (soslOf st)])
    | Except.ok (some (a :: rest)) =>
      match llm (searchPrompt (a :: rest) st) with
      | Except.error _ =>
          (⟨500, errObj "Failed to perform search"⟩,
           [UpCall.search (soslOf st), UpCall.generate (searchPrompt (a :: rest) st)])
      | Except.ok text =>
          (⟨200, Json.obj [("answer", Json.str text),
                           ("sources", Json.arr ((a :: rest).map articleJson))]⟩,
           [UpCall.search (soslOf st), UpCall.generate (searchPrompt (a :: rest) st)])
  else
    (⟨400, errObj "searchTerm is required."⟩, [])

/-- A full knowledge article, including the rendered HTML body shown by the
frontend (`article.Article_Content__c` in App.jsx 286-296). -/
structure ArticleDetail where
  Title : String
  Summary : String
  Article_Content__c : String
deriving DecidableEq

/-- JSON encoding of an `ArticleDetail`. -/
def articleDetailJson (a : ArticleDetail) : Json :=
  Json.obj [("Title", Json.str a.Title), ("Summary", Json.str a.Summary),
            ("Article_Content__c", Json.str a.Article_Content__c)]

/-- Modelled from the spec: the `GET /knowledge/article/:urlName` handler is
absent from server.js — a merge artifact left only its orphaned catch block
(lines 117-120, whose messages `Error fetching article:` and
`Failed to fetch article ${urlName}` this model reuses) and its frontend
caller (App.jsx 84-96).  Per spec §4.1 the route performs a single upstream
fetch of the article identified by `urlName` and returns the ArticleDetail
on success. -/
def articleHandler (urlName : String)
    (fetch : String → Except UpErr ArticleDetail) : Response × List UpCall :=
  match fetch urlName with
  | Except.ok art => (⟨200, articleDetailJson art⟩, [UpCall.fetchArticle urlName])
  | Except.error _ =>
      (⟨500, errObj ("Failed to fetch article " ++ urlName)⟩, [UpCall.fetchArticle urlName])

/-! ### Express routing (route table and matching) -/

/-- One segment of an Express route pattern: a literal or a named parameter. -/
inductive Seg where
  | lit (s : String)
  | param (name : String)
deriving DecidableEq

/-- Express segment matching: a named parameter matches any non-empty path
segment; it never matches an empty one. -/
def segMatches : Seg → String → Bool
  | Seg.lit s, t => s == t
  | Seg.param _, t => !(t == "")

/-- A pattern matches a path when they have the same length and match
segment-wise. -/
def patMatches : List Seg → List String → Bool
  | [], [] => true
  | p :: ps, t :: ts => segMatches p t && patMatches ps ts
  | _, _ => false

/-- A registered route: HTTP method plus pattern. -/
structure Route where
  method : String
  pattern : List Seg
deriving DecidableEq

/-- The route pattern of `/api/cases/:email`. -/
def casesPattern : List Seg :=
  [Seg.lit "api", Seg.lit "cases", Seg.param "email"]

/-- The route table of server.js, in registration order (lines 64, 69, 82,
96, 124, 145, 167).  `/api/cases/:email` is registered twice. -/
def routes : List Route :=
  [⟨"GET", [Seg.lit "api", Seg.lit "healthcheck"]⟩,
   ⟨"GET", [Seg.lit "api", Seg.lit "knowledge", Seg.lit "categories"]⟩,
   ⟨"GET", [Seg.lit "api", Seg.lit "knowledge", Seg.lit "articles", Seg.param "categoryName"]⟩,
   ⟨"GET", casesPattern⟩,
   ⟨"GET", casesPattern⟩,
   ⟨"POST", [Seg.lit "api", Seg.lit "cases", Seg.param "caseId", Seg.lit "reply"]⟩,
   ⟨"POST", [Seg.lit "api", Seg.lit "search"]⟩]

/-- Express dispatch: the first registered route matching the request, if
any.  When no route matches, Express's final handler answers 404. -/
def dispatch (method : String) (path : List String) : Option Route :=
  routes.find? (fun r => r.method == method && patMatches r.pattern path)

/-- The status of Express's default not-found response. -/
def notFoundStatus : Nat := 404

/-! ### CORS layer (server.js 14-35) -/

/-- The explicit allow-list (server.js 14-18). -/
def allowedOrigins : List String := ["http://localhost:3000"]

/-- Whether `needle` occurs as a contiguous sublist of `hay` — JS
`String.prototype.includes` on the character lists. -/
def subList (needle : List Char) : List Char → Bool
  | [] => needle.isEmpty
  | c :: t => List.isPrefixOf needle (c :: t) || subList needle t

/-- JS `hay.includes(needle)`. -/
def jsIncludes (hay needle : String) : Bool :=
  subList needle.data hay.data

/-- The origin callback of the `cors` options (server.js 20-34), as the
acceptance predicate it computes: requests with no origin are allowed; an
origin containing `vercel.app` is allowed; otherwise membership in the
allow-list decides. -/
def corsAccept (origin : Option String) : Bool :=
  match origin with
  | none => true
  | some o =>
    if jsIncludes o "vercel.app" then true
    else allowedOrigins.contains o

/-- The rejection message passed to `callback(new Error(msg), false)`. -/
def corsMsg : String :=
  "The CORS policy for this site does not allow access from the specified Origin."

/-- Outcome of a request at the server boundary: either a route-level
response or a transport-level CORS rejection. -/
inductive ServerOutcome where
  | handled (r : Response)
  | corsRejected (msg : String)

/-- The middleware pipeline: `app.use(cors(...))` runs before every route
(server.js 19 precedes all `app.get`/`app.post`), so a rejected origin
produces the CORS error and the dispatched handler — here a thunk returning
its response and upstream calls — never runs. -/
def pipeline (origin : Option String)
    (disp : Unit → Response × List UpCall) : ServerOutcome × List UpCall :=
  if corsAccept origin then
    let (r, cs) := disp ()
    (ServerOutcome.handled r, cs)
  else
    (ServerOutcome.corsRejected corsMsg, [])

/-! ## Helper lemmas -/

/-- Membership in a joined list gives a contiguous-substring relation on the
character lists. -/
theorem mem_data_infix_joinSep (sep : String) (l : List String) (s : String) (h : s ∈ l) :
    s.data <:+: (joinSep sep l).data := by
  induction l with
  | nil => cases h
  | cons x rest ih =>
    cases rest with
    | nil =>
      have hx : s = x := by simpa using h
      subst hx
      exact ⟨[], [], by simp [joinSep]⟩
    | cons y t =>
      rcases List.mem_cons.mp h with hx | hmem
      · subst hx
        refine ⟨[], (sep ++ joinSep sep (y :: t)).data, ?_⟩
        simp [joinSep, String.data_append, List.append_assoc]
      · refine (ih hmem).trans ⟨(x ++ sep).data, [], ?_⟩
        simp [joinSep, String.data_append, List.append_assoc]

/-- The title of every candidate article occurs verbatim in the Gemini
context string. -/
theorem title_infix_context (arts : List Article) (a : Article) (ha : a ∈ arts) :
    a.Title.data <:+: (searchContext arts).data := by
  have h1 : a.Title.data <:+: (contextEntry a).data := by
    refine ⟨"Title: ".data, ("\nSummary: " ++ a.Summary).data, ?_⟩
    simp [contextEntry, String.data_append, List.append_assoc]
  exact h1.trans (mem_data_infix_joinSep _ _ _ (List.mem_map_of_mem _ ha))

/-- The assembled prompt contains every candidate title and the literal
search term. -/
theorem prompt_parts (arts : List Article) (st : String) :
    (∀ a ∈ arts, a.Title.data <:+: (searchPrompt arts st).data)
    ∧ st.data <:+: (searchPrompt arts st).data := by
  constructor
  · intro a ha
    refine (title_infix_context arts a ha).trans
      ⟨promptHead.data, (promptMid ++ st ++ promptTail).data, ?_⟩
    simp [searchPrompt, String.data_append, List.append_assoc]
  · refine ⟨(promptHead ++ searchContext arts ++ promptMid).data, promptTail.data, ?_⟩
    simp [searchPrompt, String.data_append, List.append_assoc]

set_option maxRecDepth 4096 in
/-- The SOSL template carries the 10-candidate cap. -/
theorem limit_ten_in_sosl (t : String) : "LIMIT 10".data <:+: (soslOf t).data := by
  have h1 : "LIMIT 10".data <:+: soslSuf.data := by decide
  refine h1.trans ⟨(soslPre ++ t).data, [], ?_⟩
  simp [soslOf, String.data_append, List.append_assoc]

/-! ## Claim theorems -/

/-- C1: server.js registers GET /api/cases/:email twice (route table entries
4 and 5), and the two handler bodies are not behaviourally equivalent: for
every email the first handler's SOQL (`Contact.Email`, `Status != 'Closed'`)
differs from the second's (`ContactEmail`, `IsClosed = false`); only the
second returns 400 on an empty email (the first proceeds to query it); only
the first checks the session token, answering 401 when `conn.accessToken`
is falsy (the second has no such input at all). -/
theorem c1_duplicate_cases_routes :
    ((routes.filter (fun r => r.method == "GET" && r.pattern == casesPattern)).length = 2)
    ∧ (∀ email : String, soqlCases1 email ≠ soqlCases2 email)
    ∧ (∀ q, casesHandler2 "" q = (⟨400, errObj "Email parameter is required."⟩, []))
    ∧ (casesHandler1 (some "tok") "" (fun _ => Except.ok [])
        = (Except.ok ⟨200, Json.arr []⟩, [UpCall.query (soqlCases1 "")]))
    ∧ (∀ email q, casesHandler1 none email q
        = (Except.ok ⟨401, errObj "Salesforce not connected"⟩, []))
    ∧ (casesHandler2 "x@y.z" (fun _ => Except.ok [])
        = (⟨200, Json.arr []⟩, [UpCall.query (soqlCases2 "x@y.z")])) := by
  refine ⟨by decide, ?_, fun _ => rfl, rfl, fun _ _ => rfl, rfl⟩
  intro email heq
  have h := congrArg (fun s : String => s.data.length) heq
  simp only [soqlCases1, soqlCases2, String.data_append, List.length_append] at h
  have h1 : cases1Pre.data.length = 119 := rfl
  have h2 : cases1Suf.data.length = 61 := rfl
  have h3 : cases2Pre.data.length = 118 := rfl
  have h4 : cases2Suf.data.length = 59 := rfl
  omega

/-- C1 witness: the two registered handlers build different upstream queries
for the concrete email `a@b.c`. -/
theorem c1_duplicate_cases_routes_witness :
    soqlCases1 "a@b.c" ≠ soqlCases2 "a@b.c" :=
  c1_duplicate_cases_routes.2.1 "a@b.c"

/-- C2: for every non-empty urlName, the article route performs exactly one
upstream fetch of the article identified by that urlName and returns the
ArticleDetail (status 200) on success.  The handler is modelled from the
spec because server.js lost it in the merge (see `articleHandler`). -/
theorem c2_article_route (urlName : String) (_h : urlName ≠ "") (art : ArticleDetail) :
    articleHandler urlName (fun _ => Except.ok art)
      = (⟨200, articleDetailJson art⟩, [UpCall.fetchArticle urlName]) := rfl

/-- C2 witness at the concrete urlName `reset-password`. -/
theorem c2_article_route_witness :
    articleHandler "reset-password"
        (fun _ => Except.ok ⟨"Reset Password", "How to reset.", "<p>body</p>"⟩)
      = (⟨200, articleDetailJson ⟨"Reset Password", "How to reset.", "<p>body</p>"⟩⟩,
         [UpCall.fetchArticle "reset-password"]) :=
  c2_article_route "reset-password" (by decide) ⟨"Reset Password", "How to reset.", "<p>body</p>"⟩

/-- C3 (code bug): on the upstream-failure path of the first
GET /api/cases/:email handler the catch block evaluates the unbound
identifier `urlName` (server.js 118), so the handler throws a
ReferenceError instead of answering with a JSON error envelope — the
failure escapes the handler.  The other wrapped routes do produce the
one-field `{error: ...}` envelope on upstream failure, which shows the
propagation policy is the intent and the stray catch a merge slip. -/
theorem c3_first_cases_catch_throws :
    (∀ e : UpErr, casesHandler1 (some "token") "a@b.com" (fun _ => Except.error e)
        = (Except.error (JsErr.referenceError "urlName"),
           [UpCall.query (soqlCases1 "a@b.com")]))
    ∧ (∀ e : UpErr, (casesHandler2 "a@b.com" (fun _ => Except.error e)).1
        = ⟨500, errObj "Failed to fetch cases for email a@b.com"⟩)
    ∧ (∀ (e : UpErr) tr, (categoriesHandler (Except.error e) tr).1
        = ⟨500, errObj "Failed to fetch knowledge categories"⟩)
    ∧ (∀ (e : UpErr) c, (replyHandler c (some "hi") none (fun _ => Except.error e)).1
        = ⟨500, errObj "Failed to post reply"⟩)
    ∧ (∀ (e : UpErr) llm, (searchHandler (some "q") (fun _ => Except.error e) llm).1
        = ⟨500, errObj "Failed to perform search"⟩) :=
  ⟨fun _ => rfl, fun _ => rfl, fun _ _ => rfl, fun _ _ => rfl, fun _ _ => rfl⟩

/-- C4 (amended): for the body-parameter routes, an absent or blank
parameter yields HTTP 400 with a non-empty error message and zero upstream
calls; for the path-parameter routes a blank or omitted segment fails
Express route matching (no registered route matches), so no handler and no
upstream call runs and the framework answers its default 404, not 400. -/
theorem c4_validation_short_circuit :
    (∀ caseId isPub create,
        replyHandler caseId none isPub create = (⟨400, errObj "commentBody is required."⟩, [])
      ∧ replyHandler caseId (some "") isPub create
          = (⟨400, errObj "commentBody is required."⟩, []))
    ∧ (∀ crm llm,
        searchHandler none crm llm = (⟨400, errObj "searchTerm is required."⟩, [])
      ∧ searchHandler (some "") crm llm = (⟨400, errObj "searchTerm is required."⟩, []))
    ∧ ("commentBody is required." ≠ "")
    ∧ ("searchTerm is required." ≠ "")
    ∧ dispatch "GET" ["api", "cases", ""] = none
    ∧ dispatch "GET" ["api", "cases"] = none
    ∧ dispatch "GET" ["api", "knowledge", "articles", ""] = none
    ∧ dispatch "POST" ["api", "cases", "", "reply"] = none :=
  ⟨fun _ _ _ => ⟨rfl, rfl⟩, fun _ _ => ⟨rfl, rfl⟩,
   by decide, by decide, by decide, by decide, by decide, by decide⟩

/-- C4 witness: the reply route with an absent body refuses with 400 and
issues no upstream call. -/
theorem c4_validation_short_circuit_witness :
    replyHandler "500x" none none (fun _ => Except.ok (Json.obj []))
        = (⟨400, errObj "commentBody is required."⟩, [])
      ∧ replyHandler "500x" (some "") none (fun _ => Except.ok (Json.obj []))
        = (⟨400, errObj "commentBody is required."⟩, []) :=
  c4_validation_short_circuit.1 "500x" none (fun _ => Except.ok (Json.obj []))

/-- C4 counterexample: a GET /api/cases request with a blank email segment
matches no registered route, so it receives the framework 404, not the
claimed 400. -/
theorem c4_blank_path_param_counterexample :
    dispatch "GET" ["api", "cases", ""] = none
    ∧ notFoundStatus = 404 ∧ notFoundStatus ≠ 400 := by decide

/-- C5: for every non-empty searchTerm whose CRM search returns zero
candidates, POST /api/search answers 200 with exactly
`{answer: "I couldn't find any articles related to your search.",
sources: []}` after a single CRM search call, and the language-model
collaborator is never invoked. -/
theorem c5_zero_candidates (term : String) (h : term ≠ "")
    (llm : String → Except UpErr String) :
    searchHandler (some term) (fun _ => Except.ok (some [])) llm
      = (⟨200, Json.obj
            [("answer", Json.str "I couldn\x27t find any articles related to your search."),
             ("sources", Json.arr [])]⟩,
         [UpCall.search (soslOf term)])
    ∧ [UpCall.search (soslOf term)].filter isLlmCall = [] := by
  have ht : truthyOpt (some term) = true := by simp [truthyOpt, h]
  exact ⟨by simp [searchHandler, ht, noResultsBody], rfl⟩

/-- C5 witness at the concrete term `xyzzy`. -/
theorem c5_zero_candidates_witness :
    searchHandler (some "xyzzy") (fun _ => Except.ok (some []))
        (fun _ => Except.ok "never used")
      = (⟨200, Json.obj
            [("answer", Json.str "I couldn\x27t find any articles related to your search."),
             ("sources", Json.arr [])]⟩,
         [UpCall.search (soslOf "xyzzy")])
    ∧ [UpCall.search (soslOf "xyzzy")].filter isLlmCall = [] :=
  c5_zero_candidates "xyzzy" (by decide) (fun _ => Except.ok "never used")

/-- C6: for every non-empty searchTerm with a non-empty candidate list, the
handler issues exactly one CRM search (whose SOSL carries the LIMIT 10 cap)
and one language-model call whose submitted prompt contains every
candidate's title and the literal searchTerm; the response echoes the
completion verbatim in `answer` and returns the candidates, in search
order, in `sources`. -/
theorem c6_prompt_and_echo (term : String) (ht : term ≠ "") (a : Article)
    (rest : List Article) (completion : String) :
    searchHandler (some term) (fun _ => Except.ok (some (a :: rest)))
        (fun _ => Except.ok completion)
      = (⟨200, Json.obj [("answer", Json.str completion),
                         ("sources", Json.arr ((a :: rest).map articleJson))]⟩,
         [UpCall.search (soslOf term), UpCall.generate (searchPrompt (a :: rest) term)])
    ∧ (∀ x ∈ a :: rest, x.Title.data <:+: (searchPrompt (a :: rest) term).data)
    ∧ term.data <:+: (searchPrompt (a :: rest) term).data
    ∧ "LIMIT 10".data <:+: (soslOf term).data := by
  have htt : truthyOpt (some term) = true := by simp [truthyOpt, ht]
  exact ⟨by simp [searchHandler, htt], (prompt_parts (a :: rest) term).1,
         (prompt_parts (a :: rest) term).2, limit_ten_in_sosl term⟩

/-- C6 witness: two candidates titled `Reset Password` and `Billing FAQ`
for term `password`. -/
theorem c6_prompt_and_echo_witness :
    searchHandler (some "password")
        (fun _ => Except.ok (some
          [⟨"ka1", "Reset Password", "How to reset your password.", "reset-password"⟩,
           ⟨"ka2", "Billing FAQ", "Common billing questions.", "billing-faq"⟩]))
        (fun _ => Except.ok "demo completion")
      = (⟨200, Json.obj [("answer", Json.str "demo completion"),
            ("sources", Json.arr
              ([⟨"ka1", "Reset Password", "How to reset your password.", "reset-password"⟩,
                ⟨"ka2", "Billing FAQ", "Common billing questions.", "billing-faq"⟩].map articleJson))]⟩,
         [UpCall.search (soslOf "password"),
          UpCall.generate (searchPrompt
            [⟨"ka1", "Reset Password", "How to reset your password.", "reset-password"⟩,
             ⟨"ka2", "Billing FAQ", "Common billing questions.", "billing-faq"⟩] "password")])
    ∧ (∀ x ∈ ([⟨"ka1", "Reset Password", "How to reset your password.", "reset-password"⟩,
               ⟨"ka2", "Billing FAQ", "Common billing questions.", "billing-faq"⟩] : List Article),
        x.Title.data <:+: (searchPrompt
          [⟨"ka1", "Reset Password", "How to reset your password.", "reset-password"⟩,
           ⟨"ka2", "Billing FAQ", "Common billing questions.", "billing-faq"⟩] "password").data)
    ∧ "password".data <:+: (searchPrompt
          [⟨"ka1", "Reset Password", "How to reset your password.", "reset-password"⟩,
           ⟨"ka2", "Billing FAQ", "Common billing questions.", "billing-faq"⟩] "password").data
    ∧ "LIMIT 10".data <:+: (soslOf "password").data :=
  c6_prompt_and_echo "password" (by decide)
    ⟨"ka1", "Reset Password", "How to reset your password.", "reset-password"⟩
    [⟨"ka2", "Billing FAQ", "Common billing questions.", "billing-faq"⟩] "demo completion"

/-- C7: the CORS predicate accepts a present origin exactly when it matches
the deployment-preview pattern (the source's `origin.includes('vercel.app')`
test) or is on the explicit allow-list; and any rejected origin is stopped
at the CORS layer before dispatch, so the route handler never runs and no
upstream call is made. -/
theorem c7_cors_policy :
    (∀ o : String, corsAccept (some o)
        = (jsIncludes o "vercel.app" || allowedOrigins.contains o))
    ∧ (∀ (o : String) (disp : Unit → Response × List UpCall),
        corsAccept (some o) = false →
        pipeline (some o) disp = (ServerOutcome.corsRejected corsMsg, [])) := by
  constructor
  · intro o
    by_cases h : jsIncludes o "vercel.app" <;> simp [corsAccept, h]
  · intro o disp h
    simp [pipeline, h]

set_option maxRecDepth 4096 in
/-- C7 witness: the origin `https://evil.example` is rejected, and a
dispatch thunk that would issue an upstream call never runs. -/
theorem c7_cors_policy_witness :
    corsAccept (some "https://evil.example") = false
    ∧ pipeline (some "https://evil.example")
        (fun _ => (⟨201, Json.arr []⟩, [UpCall.query "side effect"]))
      = (ServerOutcome.corsRejected corsMsg, []) := by
  have h : corsAccept (some "https://evil.example") = false := by decide
  exact ⟨h, c7_cors_policy.2 "https://evil.example"
    (fun _ => (⟨201, Json.arr []⟩, [UpCall.query "side effect"])) h⟩

/-- C8 (amended): only the first GET /api/cases/:email handler checks the
CRM session, answering 401 with zero upstream calls when `conn.accessToken`
is absent or empty; the other session-requiring routes (here the categories
route) never answer 401 and always attempt their upstream call, surfacing a
dead session only as their generic 500. -/
theorem c8_session_check_only_first_cases :
    (∀ email q, casesHandler1 none email q
        = (Except.ok ⟨401, errObj "Salesforce not connected"⟩, []))
    ∧ (∀ email q, casesHandler1 (some "") email q
        = (Except.ok ⟨401, errObj "Salesforce not connected"⟩, []))
    ∧ (∀ gr tr, (categoriesHandler gr tr).2 ≠ [])
    ∧ (∀ gr tr, (categoriesHandler gr tr).1.status ≠ 401) := by
  refine ⟨fun _ _ => rfl, fun _ _ => rfl, ?_, ?_⟩ <;> intro gr tr <;>
    rcases gr with e | gl
  · simp [categoriesHandler]
  · rcases gl with _ | ⟨g, gs⟩
    · simp [categoriesHandler]
    · rcases h : tr g.name with e | t <;> simp [categoriesHandler, h]
  · simp [categoriesHandler]
  · rcases gl with _ | ⟨g, gs⟩
    · simp [categoriesHandler]
    · rcases h : tr g.name with e | t <;> simp [categoriesHandler, h]

/-- C8 witness: with no session, the first cases handler answers 401
without calling upstream. -/
theorem c8_session_check_only_first_cases_witness :
    casesHandler1 none "a@b.c" (fun _ => Except.ok [])
      = (Except.ok ⟨401, errObj "Salesforce not connected"⟩, []) :=
  c8_session_check_only_first_cases.1 "a@b.c" (fun _ => Except.ok [])

/-- C8 counterexample: the categories route with a dead session (the
upstream group fetch fails as NotConnected) still attempts the upstream
call and answers 500, not a 401-class error checked before the call. -/
theorem c8_categories_no_session_gate_counterexample :
    categoriesHandler (Except.error "NotConnected") (fun _ => Except.ok (Json.obj []))
      = (⟨500, errObj "Failed to fetch knowledge categories"⟩, [UpCall.groups])
    ∧ (500 : Nat) ≠ 401
    ∧ ([UpCall.groups] : List UpCall) ≠ [] :=
  ⟨rfl, by omega, by simp⟩

/-- C9: each upstream query string is built by direct concatenation of a
fixed template around the raw request input — the input's characters appear
verbatim, unescaped, between the template's fixed prefix and suffix, for
every input string (metacharacters included, since the equation is fully
universal). -/
theorem c9_queries_embed_raw_input :
    (∀ c : String, (soqlArticles c).data = articlesPre.data ++ c.data ++ articlesSuf.data
        ∧ c.data <:+: (soqlArticles c).data)
    ∧ (∀ e : String, (soqlCases1 e).data = cases1Pre.data ++ e.data ++ cases1Suf.data
        ∧ e.data <:+: (soqlCases1 e).data)
    ∧ (∀ t : String, (soslOf t).data = soslPre.data ++ t.data ++ soslSuf.data
        ∧ t.data <:+: (soslOf t).data) := by
  refine ⟨fun c => ⟨?_, ?_⟩, fun e => ⟨?_, ?_⟩, fun t => ⟨?_, ?_⟩⟩
  · rw [soqlArticles, String.data_append, String.data_append]
  · exact ⟨articlesPre.data, articlesSuf.data,
      by rw [soqlArticles, String.data_append, String.data_append]⟩
  · rw [soqlCases1, String.data_append, String.data_append]
  · exact ⟨cases1Pre.data, cases1Suf.data,
      by rw [soqlCases1, String.data_append, String.data_append]⟩
  · rw [soslOf, String.data_append, String.data_append]
  · exact ⟨soslPre.data, soslSuf.data,
      by rw [soslOf, String.data_append, String.data_append]⟩

/-- C9 witness: an input carrying a quote metacharacter is embedded
verbatim in the cases SOQL. -/
theorem c9_queries_embed_raw_input_witness :
    (soqlCases1 "x\x27 OR Id != null OR Contact.Email = \x27").data
      = cases1Pre.data ++ ("x\x27 OR Id != null OR Contact.Email = \x27").data
          ++ cases1Suf.data
    ∧ ("x\x27 OR Id != null OR Contact.Email = \x27").data
        <:+: (soqlCases1 "x\x27 OR Id != null OR Contact.Email = \x27").data :=
  c9_queries_embed_raw_input.2.1 "x\x27 OR Id != null OR Contact.Email = \x27"

/-- C10: for every caseId and non-empty commentBody, the reply route issues
exactly one CaseComment create with ParentId = caseId and CommentBody =
commentBody, IsPublished false when isPublic is absent and true when
isPublic is true, and answers 201 with the created record. -/
theorem c10_reply_creates_comment (caseId b : String) (hb : b ≠ "") (r : Json) :
    (replyHandler caseId (some b) none (fun _ => Except.ok r)
       = (⟨201, r⟩, [UpCall.sobjectCreate ⟨caseId, b, false⟩]))
    ∧ (replyHandler caseId (some b) (some true) (fun _ => Except.ok r)
       = (⟨201, r⟩, [UpCall.sobjectCreate ⟨caseId, b, true⟩])) := by
  have ht : truthyOpt (some b) = true := by simp [truthyOpt, hb]
  constructor <;> simp [replyHandler, ht, jsOrFalse]

/-- C10 witness at commentBody `thanks`. -/
theorem c10_reply_creates_comment_witness :
    (replyHandler "500x" (some "thanks") none (fun _ => Except.ok (Json.obj []))
       = (⟨201, Json.obj []⟩, [UpCall.sobjectCreate ⟨"500x", "thanks", false⟩]))
    ∧ (replyHandler "500x" (some "thanks") (some true) (fun _ => Except.ok (Json.obj []))
       = (⟨201, Json.obj []⟩, [UpCall.sobjectCreate ⟨"500x", "thanks", true⟩])) :=
  c10_reply_creates_comment "500x" "thanks" (by decide) (Json.obj [])

end SupportPortal
